import Mathlib

/-!
Verification development for the PassPilot engine (engine/app.py).

The Flask request handlers of app.py are embedded as pure Lean functions.
JSON request bodies are modelled by the inductive type `JValue`; the global
analyzer object is modelled by a `structure` whose operation fields are left
abstract, since the class implementing them (exam_analyzer.py) is outside
the sources in scope.  Each handler returns the HTTP response together with
the ordered list of analyzer operations it invoked, so that statements such
as "no analyzer operation is invoked" become statements about that list.
Handlers are pure functions: they mutate no state, so an early return leaves
all state unchanged by construction.
-/

namespace PassPilot

/-- A JSON value as produced by flask `request.get_json`. -/
inductive JValue where
  | jnull : JValue
  | jbool : Bool → JValue
  | jnum : Rat → JValue
  | jstr : String → JValue
  | jarr : List JValue → JValue
  | jobj : List (String × JValue) → JValue

/-- A JSON object: an association list of string keys to JSON values. -/
abbrev JObject := List (String × JValue)

/-- Python dict lookup: the value bound to the first occurrence of the key. -/
def lookupKey : JObject → String → Option JValue
  | [], _ => none
  | (k, v) :: rest, key => if k = key then some v else lookupKey rest key

/-- Python `dict.get(key, default)`. -/
def jget (o : JObject) (key : String) (dflt : JValue) : JValue :=
  match lookupKey o key with
  | some v => v
  | none => dflt

/-- Python dict item assignment `d[k] = v`: replaces the binding in place when
the key is present, otherwise appends it. -/
def jset (o : JObject) (key : String) (v : JValue) : JObject :=
  match lookupKey o key with
  | some _ => o.map (fun kv => if kv.1 = key then (key, v) else kv)
  | none => o ++ [(key, v)]

/-- Field access on a JSON value, for stating properties of response bodies. -/
def jlook (v : JValue) (key : String) : JValue :=
  match v with
  | .jobj o => jget o key .jnull
  | _ => .jnull

/-- Python `str.strip()`: remove leading and trailing whitespace. -/
def pyStrip (s : String) : String :=
  String.mk (((s.toList.dropWhile Char.isWhitespace).reverse.dropWhile
      Char.isWhitespace).reverse)

/-- Python `str.upper()`, character by character (agrees on ASCII codes,
which is what course codes use). -/
def pyUpper (s : String) : String := String.mk (s.toList.map Char.toUpper)

/-- Python truthiness of a JSON value. -/
def pyTruthy : JValue → Bool
  | .jnull => false
  | .jbool b => b
  | .jnum n => decide (n ≠ 0)
  | .jstr s => !s.isEmpty
  | .jarr xs => !xs.isEmpty
  | .jobj fs => !fs.isEmpty

/-- Numeric coercion as performed by Python arithmetic: numbers are numbers
and booleans count as 0/1; anything else raises a TypeError (`none`). -/
def pyToNum : JValue → Option Rat
  | .jnum n => some n
  | .jbool b => some (if b then 1 else 0)
  | _ => none

/-- Python subtraction `a - b`; `none` models a TypeError. -/
def pySub (a b : JValue) : Option Rat := do
  let x ← pyToNum a
  let y ← pyToNum b
  pure (x - y)

/-- Python `max(a, n)` where `n` is already a number; `none` models the
TypeError raised when `a` cannot be compared with a number. -/
def pyMaxNum (a : JValue) (n : Rat) : Option Rat := do
  let x ← pyToNum a
  pure (max x n)

/-- Decimal digit run accepted by Python `int(str)`: nonempty, digits only. -/
def parseDigits : List Char → Option Nat
  | [] => none
  | cs =>
    if cs.all Char.isDigit then
      some (cs.foldl (fun acc c => acc * 10 + (c.toNat - 48)) 0)
    else none

/-- Python `int(str)`: surrounding whitespace allowed, optional sign, then
decimal digits; `none` models the ValueError raised otherwise. -/
def pyParseInt (s : String) : Option Int :=
  match (pyStrip s).toList with
  | '+' :: cs => (parseDigits cs).map Int.ofNat
  | '-' :: cs => (parseDigits cs).map (fun n => -(n : Int))
  | cs => (parseDigits cs).map Int.ofNat

/-- Flask `request.args.get`: query parameters are strings. -/
def argsGet : List (String × String) → String → Option String
  | [], _ => none
  | (k, v) :: rest, key => if k = key then some v else argsGet rest key

/-- An HTTP response: status code and JSON body. -/
structure Response where
  status : Nat
  body : JValue

/-- The error body `jsonify(\x7b error: msg \x7d)` used throughout app.py. -/
def errBody (msg : String) : JValue := .jobj [("error", .jstr msg)]

/-- The 503 response every analyzer endpoint returns when not ready. -/
def notReadyResponse : Response := ⟨503, errBody "Exam analyzer not ready."⟩

/-- The 500 response produced by the flask errorhandler when a handler
raises an uncaught exception. -/
def internalErrorResponse : Response := ⟨500, errBody "Internal server error"⟩

/-- The ExamAnalyzer instance as visible from app.py: the readiness flag and
the operations the handlers invoke.  The implementations live in
exam_analyzer.py, outside the sources in scope, so they are abstract fields;
every theorem about a handler therefore holds for arbitrary implementations. -/
structure ExamAnalyzer where
  is_fitted : Bool
  semantic_search : String → JValue → JValue → List JValue
  get_module_distribution : List JValue → JValue
  get_marks_distribution : List JValue → JValue
  get_pass_strategy : JValue → Rat → JObject
  run_pass_simulation : JValue → Rat → JObject
  get_topic_analysis : Int → List JValue
  get_stats : JValue

/-- One invocation of an analyzer operation by a handler, with the arguments
the handler passed. -/
inductive AnalyzerCall where
  | search (query : String) (threshold top_k : JValue)
  | moduleDist (results : List JValue)
  | marksDist (results : List JValue)
  | strategy (studied : JValue) (target : Rat)
  | simulation (studied : JValue) (target : Rat)
  | topics (min_frequency : Int)
  | stats

/-- POST /query (app.py `semantic_query`).  Returns the response together
with the analyzer operations invoked, in order.  The branch for a truthy
non-string query models the AttributeError raised by `.strip()`, which the
flask errorhandler turns into a 500 response. -/
def semantic_query (exam_analyzer : Option ExamAnalyzer) (data : Option JObject) :
    Response × List AnalyzerCall :=
  match exam_analyzer with
  | none => (notReadyResponse, [])
  | some a =>
    if !a.is_fitted then (notReadyResponse, [])
    else
      match data with
      | none => (⟨400, errBody "Missing required field: query"⟩, [])
      | some d =>
        if !pyTruthy (.jobj d) || !pyTruthy (jget d "query" .jnull) then
          (⟨400, errBody "Missing required field: query"⟩, [])
        else
          match jget d "query" .jnull with
          | .jstr qraw =>
            let query := pyStrip qraw
            if query.isEmpty then (⟨400, errBody "Query cannot be empty"⟩, [])
            else
              let similarity_threshold := jget d "similarity_threshold" (.jnum (1/2))
              let top_k := jget d "top_k" (.jnum 20)
              let results := a.semantic_search query similarity_threshold top_k
              (⟨200, .jobj [("query", .jstr query),
                            ("total_matches", .jnum results.length),
                            ("results", .jarr results),
                            ("module_distribution", a.get_module_distribution results),
                            ("marks_distribution", a.get_marks_distribution results)]⟩,
               [.search query similarity_threshold top_k, .moduleDist results,
                .marksDist results])
          | _ => (internalErrorResponse, [])

/-- POST /pass-strategy (app.py `pass_strategy`).  A TypeError in the target
arithmetic (non-numeric field) escapes to the flask errorhandler as 500. -/
def pass_strategy (exam_analyzer : Option ExamAnalyzer) (data : Option JObject) :
    Response × List AnalyzerCall :=
  match exam_analyzer with
  | none => (notReadyResponse, [])
  | some a =>
    if !a.is_fitted then (notReadyResponse, [])
    else
      match data with
      | none => (⟨400, errBody "Invalid JSON payload"⟩, [])
      | some d =>
        if !pyTruthy (.jobj d) then (⟨400, errBody "Invalid JSON payload"⟩, [])
        else
          let studied_topics := jget d "studied_topics" (.jarr [])
          let internal_marks := jget d "internal_marks" (.jnum 0)
          let external_pass_threshold := jget d "external_pass_threshold" (.jnum 40)
          let overall_pass_threshold := jget d "overall_pass_threshold" (.jnum 75)
          match pySub overall_pass_threshold internal_marks with
          | none => (internalErrorResponse, [])
          | some marks_needed_for_overall =>
            match pyMaxNum external_pass_threshold marks_needed_for_overall with
            | none => (internalErrorResponse, [])
            | some target_external_marks =>
              let strategy := a.get_pass_strategy studied_topics target_external_marks
              let inputs : JValue :=
                .jobj [("internal_marks", internal_marks),
                       ("studied_topics", studied_topics),
                       ("calculated_target_marks", .jnum target_external_marks)]
              (⟨200, .jobj (jset strategy "inputs" inputs)⟩,
               [.strategy studied_topics target_external_marks])

/-- POST /pass-simulation (app.py `pass_simulation`).  Identical request
handling to /pass-strategy, invoking the simulation instead. -/
def pass_simulation (exam_analyzer : Option ExamAnalyzer) (data : Option JObject) :
    Response × List AnalyzerCall :=
  match exam_analyzer with
  | none => (notReadyResponse, [])
  | some a =>
    if !a.is_fitted then (notReadyResponse, [])
    else
      match data with
      | none => (⟨400, errBody "Invalid JSON payload"⟩, [])
      | some d =>
        if !pyTruthy (.jobj d) then (⟨400, errBody "Invalid JSON payload"⟩, [])
        else
          let studied_topics := jget d "studied_topics" (.jarr [])
          let internal_marks := jget d "internal_marks" (.jnum 0)
          let external_pass_threshold := jget d "external_pass_threshold" (.jnum 40)
          let overall_pass_threshold := jget d "overall_pass_threshold" (.jnum 75)
          match pySub overall_pass_threshold internal_marks with
          | none => (internalErrorResponse, [])
          | some marks_needed_for_overall =>
            match pyMaxNum external_pass_threshold marks_needed_for_overall with
            | none => (internalErrorResponse, [])
            | some target_external_marks =>
              let simulation_results := a.run_pass_simulation studied_topics target_external_marks
              let inputs : JValue :=
                .jobj [("internal_marks", internal_marks),
                       ("studied_topics", studied_topics),
                       ("calculated_target_marks", .jnum target_external_marks)]
              (⟨200, .jobj (jset simulation_results "inputs" inputs)⟩,
               [.simulation studied_topics target_external_marks])

/-- GET /topics (app.py `analyze_topics`).  `int(request.args.get(..., 2))`
raises ValueError for a non-numeric parameter; the flask errorhandler turns
this into a 500 response. -/
def analyze_topics (exam_analyzer : Option ExamAnalyzer) (args : List (String × String)) :
    Response × List AnalyzerCall :=
  match exam_analyzer with
  | none => (notReadyResponse, [])
  | some a =>
    if !a.is_fitted then (notReadyResponse, [])
    else
      let parsed : Option Int :=
        match argsGet args "min_frequency" with
        | none => some 2
        | some s => pyParseInt s
      match parsed with
      | none => (internalErrorResponse, [])
      | some min_frequency =>
        let topic_list := a.get_topic_analysis min_frequency
        (⟨200, .jobj [("total_topics", .jnum topic_list.length),
                      ("parameters", .jobj [("min_frequency", .jnum min_frequency)]),
                      ("topics", .jarr topic_list)]⟩,
         [.topics min_frequency])

/-- GET /stats (app.py `dataset_stats`). -/
def dataset_stats (exam_analyzer : Option ExamAnalyzer) : Response × List AnalyzerCall :=
  match exam_analyzer with
  | none => (notReadyResponse, [])
  | some a =>
    if !a.is_fitted then (notReadyResponse, [])
    else (⟨200, a.get_stats⟩, [.stats])

/-- Outcome of the for-loop of GET /topics-for-course over the courses list:
the first case-insensitive match, exhaustion, or an exception (a non-dict
entry, or a non-string courseCode, makes attribute access raise). -/
inductive CourseScan where
  | found (courseCode : JValue) (topics : JValue)
  | notFound
  | raised

/-- The for-loop of GET /topics-for-course, entry by entry. -/
def scanCourses (code : String) : List JValue → CourseScan
  | [] => .notFound
  | c :: rest =>
    match c with
    | .jobj o =>
      match jget o "courseCode" (.jstr "") with
      | .jstr cc =>
        if pyUpper cc = pyUpper code then
          .found (.jstr cc) (jget o "topics" (.jarr []))
        else scanCourses code rest
      | _ => .raised
    | _ => .raised

/-- GET /topics-for-course (app.py `get_topics_for_course`).  The parameter
`exams_info` is the parsed content of exams_info.json, with `none` standing
for FileNotFoundError (the file is repository data outside src).  Python
iteration over a non-list courses value either raises (TypeError, or an
attribute error on the first element) or, for an empty string or empty dict,
runs zero iterations and falls through to the 404 branch. -/
def get_topics_for_course (args : List (String × String)) (exams_info : Option JValue) :
    Response :=
  match argsGet args "code" with
  | none => ⟨400, errBody "Query parameter code is required."⟩
  | some course_code =>
    if course_code.isEmpty then ⟨400, errBody "Query parameter code is required."⟩
    else
      match exams_info with
      | none => ⟨500, errBody "Server configuration file not found."⟩
      | some j =>
        match j with
        | .jobj d =>
          match jget d "courses" (.jarr []) with
          | .jarr cs =>
            match scanCourses course_code cs with
            | .found cc topics => ⟨200, .jobj [("courseCode", cc), ("topics", topics)]⟩
            | .notFound => ⟨404, errBody "Course not found."⟩
            | .raised => internalErrorResponse
          | .jstr s => if s.isEmpty then ⟨404, errBody "Course not found."⟩
                       else internalErrorResponse
          | .jobj o => if o.isEmpty then ⟨404, errBody "Course not found."⟩
                       else internalErrorResponse
          | _ => internalErrorResponse
        | _ => internalErrorResponse

/-- Environment of `initialize_exam_analyzer`: whether the data folder
exists, and which of the build steps raise.  The ExamAnalyzer construction,
load and embedding build are implemented outside the sources in scope, so
each possible failure is abstracted to a Boolean oracle. -/
structure InitEnv where
  ctor_raises : Bool
  data_folder_exists : Bool
  load_raises : Bool
  build_raises : Bool

/-- A step of the try-block of `initialize_exam_analyzer`. -/
inductive InitStep where
  | ctor
  | load
  | build
deriving DecidableEq

/-- The try-block body of `initialize_exam_analyzer`: `Except` models an
exception escaping the block; the list records the steps attempted. -/
def initializeBody (env : InitEnv) : Except (List InitStep) (Bool × List InitStep) :=
  if env.ctor_raises then .error [.ctor]
  else if !env.data_folder_exists then .ok (false, [.ctor])
  else if env.load_raises then .error [.ctor, .load]
  else if env.build_raises then .error [.ctor, .load, .build]
  else .ok (true, [.ctor, .load, .build])

/-- app.py `initialize_exam_analyzer`: the try-block wrapped in the
`except Exception` clause, which converts any exception into a False
return.  The result type `Bool × List InitStep` (instead of `Except`)
expresses that no exception propagates out of the function. -/
def initialize_exam_analyzer (env : InitEnv) : Bool × List InitStep :=
  match initializeBody env with
  | .ok r => r
  | .error t => (false, t)

/-! ## Strategy Planner model

The Planner (`get_pass_strategy` of exam_analyzer.py) is not among the
sources in scope; it is modelled from the specification. -/

/-- A question record of the corpus (spec data model). -/
structure Question where
  module : String
  topic : Option String
  text : String
  marks : Nat

/-- Aggregate over all questions sharing a topic label (spec TopicRecord). -/
structure TopicRecord where
  topic : String
  frequency : Nat
  total_marks : Nat
  avg_marks : Rat

/-- Modelled from the spec: the topic grouping of the Statistics Engine
(exam_analyzer.py is not under src/).  Groups the corpus by topic label and
computes frequency, total marks and average marks per topic. -/
def computeTopicRecords (corpus : List Question) : List TopicRecord :=
  ((corpus.filterMap (fun q => q.topic)).dedup).map fun t =>
    let qs := corpus.filter (fun q => q.topic = some t)
    let total := (qs.map (fun q => q.marks)).sum
    { topic := t, frequency := qs.length, total_marks := total,
      avg_marks := (total : Rat) / (qs.length : Rat) }

/-- Ranking weight for non-studied topics: higher frequency and higher
average marks rank first.  The exact formula is an open question of the
spec; the product is chosen and documented here. -/
def topicWeight (r : TopicRecord) : Rat := (r.frequency : Rat) * r.avg_marks

/-- Modelled from the spec: greedy accumulation of the Planner — walk the
ranked pool, adding the average marks of each topic, until the running
total meets or exceeds the target or the pool is exhausted. -/
def greedyPlan : List TopicRecord → Rat → Rat → List String × Rat
  | [], acc, _ => ([], acc)
  | r :: rest, acc, target =>
    if target ≤ acc then ([], acc)
    else
      let step := greedyPlan rest (acc + r.avg_marks) target
      (r.topic :: step.1, step.2)

/-- Result of the Strategy Planner (spec StrategyResult). -/
structure StrategyResult where
  recommended : List String
  projected_marks : Rat
  feasible : Bool
  margin : Rat

/-- Sum of average marks of the studied topics present in the records
(the studied-topic contribution). -/
def studiedContribution (records : List TopicRecord) (studied : List String) : Rat :=
  ((records.filter (fun r => r.topic ∈ studied)).map (fun r => r.avg_marks)).sum

/-- Sum of average marks across all non-studied topics. -/
def nonStudiedAvgSum (records : List TopicRecord) (studied : List String) : Rat :=
  ((records.filter (fun r => r.topic ∉ studied)).map (fun r => r.avg_marks)).sum

namespace Planner

/-- Modelled from the spec: the Strategy Planner (exam_analyzer.py is not
under src/).  Excludes studied topics, ranks the remainder by weight,
greedily accumulates average marks starting from the studied-topic
contribution until the target is met or the pool is exhausted, and reports
feasibility as whether the accumulated total reached the target. -/
def get_pass_strategy (records : List TopicRecord) (studied : List String) (target : Rat) :
    StrategyResult :=
  let start := studiedContribution records studied
  let pool := (records.filter (fun r => r.topic ∉ studied)).insertionSort
      (fun r s => topicWeight s ≤ topicWeight r)
  let plan := greedyPlan pool start target
  { recommended := plan.1, projected_marks := plan.2,
    feasible := decide (target ≤ plan.2), margin := plan.2 - target }

end Planner

/-- The match attempt of the /topics-for-course loop on a single entry:
the courseCode and topics of the entry when it is an object whose
courseCode matches the requested code case-insensitively. -/
def courseHit (code : String) (c : JValue) : Option (String × JValue) :=
  match c with
  | .jobj o =>
    match jget o "courseCode" (.jstr "") with
    | .jstr cc =>
      if pyUpper cc = pyUpper code then some (cc, jget o "topics" (.jarr []))
      else none
    | _ => none
  | _ => none

/-- The first course of the list matching the requested code
case-insensitively, with its courseCode and topics. -/
def firstMatchingCourse (code : String) (cs : List JValue) : Option (String × JValue) :=
  cs.findSome? (courseHit code)

/-- A well-formed course entry: an object whose courseCode is a string. -/
def WFCourse (c : JValue) : Prop :=
  ∃ o cc, c = JValue.jobj o ∧ jget o "courseCode" (.jstr "") = .jstr cc

/-- A fully concrete analyzer with trivial operations, used to instantiate
theorems at closed inputs. -/
def trivialAnalyzer : ExamAnalyzer where
  is_fitted := true
  semantic_search := fun _ _ _ => []
  get_module_distribution := fun _ => .jobj []
  get_marks_distribution := fun _ => .jobj []
  get_pass_strategy := fun _ _ => []
  run_pass_simulation := fun _ _ => []
  get_topic_analysis := fun _ => []
  get_stats := .jobj []

/-! ## Helper lemmas -/

theorem jget_of_lookup {d : JObject} {k : String} {v dflt : JValue}
    (h : lookupKey d k = some v) : jget d k dflt = v := by
  simp [jget, h]

theorem jget_of_lookup_none {d : JObject} {k : String} {dflt : JValue}
    (h : lookupKey d k = none) : jget d k dflt = dflt := by
  simp [jget, h]

theorem lookupKey_append_self (o : JObject) (k : String) (v : JValue)
    (h : lookupKey o k = none) : lookupKey (o ++ [(k, v)]) k = some v := by
  induction o with
  | nil => simp [lookupKey]
  | cons kv rest ih =>
    rw [List.cons_append]
    simp only [lookupKey] at h ⊢
    by_cases hk : kv.1 = k
    · rw [if_pos hk] at h
      exact absurd h (by simp)
    · rw [if_neg hk] at h ⊢
      exact ih h

theorem lookupKey_map_replace (o : JObject) (k : String) (v w : JValue)
    (h : lookupKey o k = some w) :
    lookupKey (o.map (fun kv => if kv.1 = k then (k, v) else kv)) k = some v := by
  induction o with
  | nil => simp [lookupKey] at h
  | cons kv rest ih =>
    rw [List.map_cons]
    simp only [lookupKey] at h
    by_cases hk : kv.1 = k
    · rw [if_pos hk]
      simp [lookupKey]
    · rw [if_neg hk]
      rw [if_neg hk] at h
      simp only [lookupKey]
      rw [if_neg hk]
      exact ih h

/-- Item assignment followed by lookup of the same key yields the assigned
value, whether or not the key was already bound. -/
theorem lookupKey_jset_self (o : JObject) (k : String) (v : JValue) :
    lookupKey (jset o k v) k = some v := by
  unfold jset
  cases h : lookupKey o k with
  | none => exact lookupKey_append_self o k v h
  | some w => exact lookupKey_map_replace o k v w h

theorem isEmpty_false_of_ne {q : String} (h : q ≠ "") : q.isEmpty = false := by
  cases hq : q.isEmpty with
  | false => rfl
  | true => exact absurd ((String.isEmpty_iff q).mp hq) h

theorem ne_empty_of_pyStrip_ne {q : String} (h : pyStrip q ≠ "") : q ≠ "" := by
  intro h0
  subst h0
  exact h rfl

theorem empty_isEmpty : "".isEmpty = true := rfl

theorem pyTruthy_jobj_of_ne {d : JObject} (hne : d ≠ []) :
    pyTruthy (.jobj d) = true := by
  cases d with
  | nil => exact absurd rfl hne
  | cons kv rest => simp [pyTruthy]

theorem ne_nil_of_lookup {d : JObject} {k : String} {v : JValue}
    (h : lookupKey d k = some v) : d ≠ [] := by
  intro h0
  subst h0
  simp [lookupKey] at h

/-! ## Claims -/

/-- C1: for every request to an analytical endpoint (/query, /pass-strategy,
/pass-simulation, /topics, /stats) made while the exam analyzer is
uninitialized or its is_fitted flag is false, the handler fails fast with a
503 response and invokes no analyzer operation (the call list is empty), so
all state is left unchanged. -/
theorem c1_not_ready_fails_fast (a? : Option ExamAnalyzer)
    (h : a? = none ∨ ∃ a, a? = some a ∧ a.is_fitted = false) :
    (∀ data, semantic_query a? data = (notReadyResponse, []))
  ∧ (∀ data, pass_strategy a? data = (notReadyResponse, []))
  ∧ (∀ data, pass_simulation a? data = (notReadyResponse, []))
  ∧ (∀ args, analyze_topics a? args = (notReadyResponse, []))
  ∧ dataset_stats a? = (notReadyResponse, []) := by
  rcases h with rfl | ⟨a, rfl, hf⟩
  · exact ⟨fun _ => rfl, fun _ => rfl, fun _ => rfl, fun _ => rfl, rfl⟩
  · refine ⟨fun data => ?_, fun data => ?_, fun data => ?_, fun args => ?_, ?_⟩ <;>
      simp [semantic_query, pass_strategy, pass_simulation, analyze_topics,
            dataset_stats, hf]

/-- Witness for C1 at the concrete uninitialized state. -/
theorem c1_not_ready_fails_fast_witness :
    semantic_query none (some [("query", .jstr "x")]) = (notReadyResponse, [])
  ∧ dataset_stats none = (notReadyResponse, []) :=
  ⟨(c1_not_ready_fails_fast none (Or.inl rfl)).1 _,
   (c1_not_ready_fails_fast none (Or.inl rfl)).2.2.2.2⟩

/-- C9: initialize_exam_analyzer never propagates an exception (its result
type is a plain pair, with every exception of the body converted by the
except clause into a False return, third conjunct); if the data folder does
not exist it returns False without attempting any load (first conjunct);
any exception during loading or embedding build yields False (second
conjunct). -/
theorem c9_initialize_never_propagates (env : InitEnv) :
    (env.data_folder_exists = false →
        (initialize_exam_analyzer env).1 = false
      ∧ InitStep.load ∉ (initialize_exam_analyzer env).2)
  ∧ ((env.load_raises = true ∨ env.build_raises = true) →
      (initialize_exam_analyzer env).1 = false)
  ∧ (∀ t, initializeBody env = .error t → initialize_exam_analyzer env = (false, t)) := by
  obtain ⟨c, dfe, lr, br⟩ := env
  refine ⟨?_, ?_, ?_⟩ <;>
    cases c <;> cases dfe <;> cases lr <;> cases br <;>
      simp [initialize_exam_analyzer, initializeBody]

/-- Witness for C9 at a concrete environment with a missing data folder. -/
theorem c9_initialize_never_propagates_witness :
    (initialize_exam_analyzer ⟨false, false, true, false⟩).1 = false
  ∧ InitStep.load ∉ (initialize_exam_analyzer ⟨false, false, true, false⟩).2 :=
  (c9_initialize_never_propagates ⟨false, false, true, false⟩).1 rfl

/-- Value of the /pass-strategy handler on the success path: readiness and
a truthy body with numeric marks fields. -/
theorem pass_strategy_success (a : ExamAnalyzer) (hfit : a.is_fitted = true)
    (d : JObject) (hne : d ≠ []) (im ov ex : Rat)
    (him : pyToNum (jget d "internal_marks" (.jnum 0)) = some im)
    (hov : pyToNum (jget d "overall_pass_threshold" (.jnum 75)) = some ov)
    (hex : pyToNum (jget d "external_pass_threshold" (.jnum 40)) = some ex) :
    pass_strategy (some a) (some d)
      = (⟨200, .jobj (jset (a.get_pass_strategy (jget d "studied_topics" (.jarr []))
            (max ex (ov - im))) "inputs"
            (.jobj [("internal_marks", jget d "internal_marks" (.jnum 0)),
                    ("studied_topics", jget d "studied_topics" (.jarr [])),
                    ("calculated_target_marks", .jnum (max ex (ov - im)))]))⟩,
         [.strategy (jget d "studied_topics" (.jarr [])) (max ex (ov - im))]) := by
  have hd : pyTruthy (.jobj d) = true := pyTruthy_jobj_of_ne hne
  simp [pass_strategy, hfit, hd, pySub, pyMaxNum, him, hov, hex, max_comm]

/-- Value of the /pass-simulation handler on the success path. -/
theorem pass_simulation_success (a : ExamAnalyzer) (hfit : a.is_fitted = true)
    (d : JObject) (hne : d ≠ []) (im ov ex : Rat)
    (him : pyToNum (jget d "internal_marks" (.jnum 0)) = some im)
    (hov : pyToNum (jget d "overall_pass_threshold" (.jnum 75)) = some ov)
    (hex : pyToNum (jget d "external_pass_threshold" (.jnum 40)) = some ex) :
    pass_simulation (some a) (some d)
      = (⟨200, .jobj (jset (a.run_pass_simulation (jget d "studied_topics" (.jarr []))
            (max ex (ov - im))) "inputs"
            (.jobj [("internal_marks", jget d "internal_marks" (.jnum 0)),
                    ("studied_topics", jget d "studied_topics" (.jarr [])),
                    ("calculated_target_marks", .jnum (max ex (ov - im)))]))⟩,
         [.simulation (jget d "studied_topics" (.jarr [])) (max ex (ov - im))]) := by
  have hd : pyTruthy (.jobj d) = true := pyTruthy_jobj_of_ne hne
  simp [pass_simulation, hfit, hd, pySub, pyMaxNum, him, hov, hex, max_comm]

/-- Value of the /query handler on the success path: readiness and a query
string that is nonempty after stripping. -/
theorem semantic_query_success (a : ExamAnalyzer) (hfit : a.is_fitted = true)
    (d : JObject) (s : String) (hq : lookupKey d "query" = some (.jstr s))
    (hs : pyStrip s ≠ "") :
    semantic_query (some a) (some d)
      = (⟨200, .jobj [("query", .jstr (pyStrip s)),
                      ("total_matches", .jnum ((a.semantic_search (pyStrip s)
                          (jget d "similarity_threshold" (.jnum (1/2)))
                          (jget d "top_k" (.jnum 20))).length : Rat)),
                      ("results", .jarr (a.semantic_search (pyStrip s)
                          (jget d "similarity_threshold" (.jnum (1/2)))
                          (jget d "top_k" (.jnum 20)))),
                      ("module_distribution", a.get_module_distribution
                          (a.semantic_search (pyStrip s)
                            (jget d "similarity_threshold" (.jnum (1/2)))
                            (jget d "top_k" (.jnum 20)))),
                      ("marks_distribution", a.get_marks_distribution
                          (a.semantic_search (pyStrip s)
                            (jget d "similarity_threshold" (.jnum (1/2)))
                            (jget d "top_k" (.jnum 20))))]⟩,
         [.search (pyStrip s) (jget d "similarity_threshold" (.jnum (1/2)))
            (jget d "top_k" (.jnum 20)),
          .moduleDist (a.semantic_search (pyStrip s)
            (jget d "similarity_threshold" (.jnum (1/2))) (jget d "top_k" (.jnum 20))),
          .marksDist (a.semantic_search (pyStrip s)
            (jget d "similarity_threshold" (.jnum (1/2))) (jget d "top_k" (.jnum 20)))]) := by
  have hd : pyTruthy (.jobj d) = true := pyTruthy_jobj_of_ne (ne_nil_of_lookup hq)
  have hse : s.isEmpty = false := isEmpty_false_of_ne (ne_empty_of_pyStrip_ne hs)
  have hpe : (pyStrip s).isEmpty = false := isEmpty_false_of_ne hs
  simp [semantic_query, hfit, hd, jget_of_lookup hq, pyTruthy, hse, hpe]
  exact ne_nil_of_lookup hq

/-- C2: for every /pass-strategy and /pass-simulation request with numeric
marks fields, the target passed to the analyzer equals
max(external_pass_threshold, overall_pass_threshold - internal_marks); both
endpoints compute it by the identical formula, and both echo it back in the
response under inputs.calculated_target_marks together with the given
internal_marks and studied_topics. -/
theorem c2_target_marks_formula (a : ExamAnalyzer) (hfit : a.is_fitted = true)
    (d : JObject) (hne : d ≠ []) (im ov ex : Rat)
    (him : pyToNum (jget d "internal_marks" (.jnum 0)) = some im)
    (hov : pyToNum (jget d "overall_pass_threshold" (.jnum 75)) = some ov)
    (hex : pyToNum (jget d "external_pass_threshold" (.jnum 40)) = some ex) :
    pass_strategy (some a) (some d)
      = (⟨200, .jobj (jset (a.get_pass_strategy (jget d "studied_topics" (.jarr []))
            (max ex (ov - im))) "inputs"
            (.jobj [("internal_marks", jget d "internal_marks" (.jnum 0)),
                    ("studied_topics", jget d "studied_topics" (.jarr [])),
                    ("calculated_target_marks", .jnum (max ex (ov - im)))]))⟩,
         [.strategy (jget d "studied_topics" (.jarr [])) (max ex (ov - im))])
  ∧ pass_simulation (some a) (some d)
      = (⟨200, .jobj (jset (a.run_pass_simulation (jget d "studied_topics" (.jarr []))
            (max ex (ov - im))) "inputs"
            (.jobj [("internal_marks", jget d "internal_marks" (.jnum 0)),
                    ("studied_topics", jget d "studied_topics" (.jarr [])),
                    ("calculated_target_marks", .jnum (max ex (ov - im)))]))⟩,
         [.simulation (jget d "studied_topics" (.jarr [])) (max ex (ov - im))])
  ∧ jlook (jlook (pass_strategy (some a) (some d)).1.body "inputs")
        "calculated_target_marks" = .jnum (max ex (ov - im))
  ∧ jlook (jlook (pass_simulation (some a) (some d)).1.body "inputs")
        "calculated_target_marks" = .jnum (max ex (ov - im)) := by
  have hstrat := pass_strategy_success a hfit d hne im ov ex him hov hex
  have hsim := pass_simulation_success a hfit d hne im ov ex him hov hex
  refine ⟨hstrat, hsim, ?_, ?_⟩
  · rw [hstrat]
    simp [jlook, jget, lookupKey, lookupKey_jset_self]
  · rw [hsim]
    simp [jlook, jget, lookupKey, lookupKey_jset_self]

/-- Witness for C2 at a concrete request with internal_marks 10, default
thresholds: the calculated target is max(40, 75 - 10) = 65. -/
theorem c2_target_marks_formula_witness :
    jlook (jlook (pass_strategy (some trivialAnalyzer)
        (some [("internal_marks", .jnum 10)])).1.body "inputs")
      "calculated_target_marks" = .jnum 65 := by
  have h := (c2_target_marks_formula trivialAnalyzer rfl
      [("internal_marks", .jnum 10)] (by simp) 10 75 40 rfl rfl rfl).2.2.1
  rw [h]
  have : max (40 : Rat) (75 - 10) = 65 := by
    rw [max_eq_right (by norm_num)]
    norm_num
  rw [this]

/-- C4: for every /query request whose query field is missing, or present
but empty (or whitespace-only) after stripping, the handler reports the
error as bad-request (400) and performs no search and no partial processing
(no analyzer operation is invoked); a missing JSON body is also rejected
with 400. -/
theorem c4_query_missing_or_blank (a : ExamAnalyzer) (hfit : a.is_fitted = true)
    (d : JObject)
    (h : lookupKey d "query" = none
       ∨ ∃ s, lookupKey d "query" = some (.jstr s) ∧ pyStrip s = "") :
    ((semantic_query (some a) (some d)).1.status = 400
      ∧ (semantic_query (some a) (some d)).2 = [])
  ∧ ((semantic_query (some a) none).1.status = 400
      ∧ (semantic_query (some a) none).2 = []) := by
  refine ⟨?_, by simp [semantic_query, hfit]⟩
  rcases h with hq | ⟨s, hs, hstrip⟩
  · have : semantic_query (some a) (some d)
        = (⟨400, errBody "Missing required field: query"⟩, []) := by
      simp [semantic_query, hfit, jget_of_lookup_none hq, pyTruthy]
    rw [this]
    exact ⟨rfl, rfl⟩
  · have hdt : pyTruthy (.jobj d) = true := pyTruthy_jobj_of_ne (ne_nil_of_lookup hs)
    by_cases hse : s.isEmpty
    · have : semantic_query (some a) (some d)
          = (⟨400, errBody "Missing required field: query"⟩, []) := by
        simp [semantic_query, hfit, jget_of_lookup hs, pyTruthy, hse]
      rw [this]
      exact ⟨rfl, rfl⟩
    · obtain ⟨kv, rest, rfl⟩ : ∃ kv rest, d = kv :: rest := by
        cases d with
        | nil => simp [lookupKey] at hs
        | cons kv rest => exact ⟨kv, rest, rfl⟩
      have hse2 : s.isEmpty = false := by simpa using hse
      have : semantic_query (some a) (some (kv :: rest))
          = (⟨400, errBody "Query cannot be empty"⟩, []) := by
        simp [semantic_query, hfit, jget, hs, pyTruthy, hse2, hstrip, empty_isEmpty]
      rw [this]
      exact ⟨rfl, rfl⟩

/-- Witness for C4 at a whitespace-only query string. -/
theorem c4_query_missing_or_blank_witness :
    ((semantic_query (some trivialAnalyzer) (some [("query", .jstr " ")])).1.status = 400
      ∧ (semantic_query (some trivialAnalyzer) (some [("query", .jstr " ")])).2 = [])
  ∧ ((semantic_query (some trivialAnalyzer) none).1.status = 400
      ∧ (semantic_query (some trivialAnalyzer) none).2 = []) :=
  c4_query_missing_or_blank trivialAnalyzer rfl [("query", .jstr " ")]
    (Or.inr ⟨" ", rfl, rfl⟩)

/-- C5 counterexample: a /query request carrying top_k = 0 with a ready
analyzer and a valid query is NOT rejected as bad-request; the handler
returns 200 and the search is invoked with that top_k, refuting the claim
that non-positive top_k is reported as InvalidInput with no search call. -/
theorem c5_counterexample :
    (semantic_query (some trivialAnalyzer)
        (some [("query", .jstr "x"), ("top_k", .jnum 0)])).1.status = 200
  ∧ (semantic_query (some trivialAnalyzer)
        (some [("query", .jstr "x"), ("top_k", .jnum 0)])).2
      = [.search "x" (.jnum (1/2)) (.jnum 0), .moduleDist [], .marksDist []] :=
  ⟨rfl, rfl⟩

/-- C5 amended: the /query handler performs no top_k validation: for every
request with a ready analyzer, a valid query, and a numeric non-positive
top_k, the search is invoked with that top_k and the response status is
200, not bad-request. -/
theorem c5_no_topk_validation (a : ExamAnalyzer) (hfit : a.is_fitted = true)
    (d : JObject) (s : String) (hq : lookupKey d "query" = some (.jstr s))
    (hs : pyStrip s ≠ "") (t : Rat) (ht : lookupKey d "top_k" = some (.jnum t))
    (htle : t ≤ 0) :
    (semantic_query (some a) (some d)).1.status = 200
  ∧ (semantic_query (some a) (some d)).2
      = [.search (pyStrip s) (jget d "similarity_threshold" (.jnum (1/2))) (.jnum t),
         .moduleDist (a.semantic_search (pyStrip s)
            (jget d "similarity_threshold" (.jnum (1/2))) (.jnum t)),
         .marksDist (a.semantic_search (pyStrip s)
            (jget d "similarity_threshold" (.jnum (1/2))) (.jnum t))] := by
  have h := semantic_query_success a hfit d s hq hs
  rw [jget_of_lookup ht] at h
  rw [h]
  exact ⟨rfl, rfl⟩

/-- Witness for the amended C5 at top_k = 0. -/
theorem c5_no_topk_validation_witness :
    (semantic_query (some trivialAnalyzer)
        (some [("query", .jstr "x"), ("top_k", .jnum 0)])).1.status = 200
  ∧ (semantic_query (some trivialAnalyzer)
        (some [("query", .jstr "x"), ("top_k", .jnum 0)])).2
      = [.search (pyStrip "x")
            (jget [("query", .jstr "x"), ("top_k", .jnum 0)]
              "similarity_threshold" (.jnum (1/2))) (.jnum 0),
         .moduleDist [], .marksDist []] :=
  c5_no_topk_validation trivialAnalyzer rfl [("query", .jstr "x"), ("top_k", .jnum 0)]
    "x" rfl (by decide) 0 rfl le_rfl

/-- C8: for every successful /query call, the response field total_matches
equals the number of entries in the response field results; in particular
a query for which the search matches nothing yields a 200 response with an
empty results sequence and total_matches = 0, not an error. -/
theorem c8_total_matches_consistent (a : ExamAnalyzer) (hfit : a.is_fitted = true)
    (d : JObject) (s : String) (hq : lookupKey d "query" = some (.jstr s))
    (hs : pyStrip s ≠ "") :
    (semantic_query (some a) (some d)).1.status = 200
  ∧ (∃ rs, jlook (semantic_query (some a) (some d)).1.body "results" = .jarr rs
      ∧ jlook (semantic_query (some a) (some d)).1.body "total_matches"
          = .jnum (rs.length : Rat))
  ∧ (a.semantic_search (pyStrip s) (jget d "similarity_threshold" (.jnum (1/2)))
        (jget d "top_k" (.jnum 20)) = [] →
      jlook (semantic_query (some a) (some d)).1.body "total_matches" = .jnum 0
      ∧ jlook (semantic_query (some a) (some d)).1.body "results" = .jarr []) := by
  have h := semantic_query_success a hfit d s hq hs
  rw [h]
  refine ⟨rfl, ⟨a.semantic_search (pyStrip s)
      (jget d "similarity_threshold" (.jnum (1/2)))
      (jget d "top_k" (.jnum 20)), ?_, ?_⟩, fun hnil => ?_⟩
  · simp [jlook, jget, lookupKey]
  · simp [jlook, jget, lookupKey]
  · rw [hnil]
    constructor
    · simp [jlook, jget, lookupKey]
    · simp [jlook, jget, lookupKey]

/-- Witness for C8 at a concrete empty-result search. -/
theorem c8_total_matches_consistent_witness :
    jlook (semantic_query (some trivialAnalyzer)
        (some [("query", .jstr "x")])).1.body "total_matches" = .jnum 0
  ∧ jlook (semantic_query (some trivialAnalyzer)
        (some [("query", .jstr "x")])).1.body "results" = .jarr [] :=
  (c8_total_matches_consistent trivialAnalyzer rfl [("query", .jstr "x")]
    "x" rfl (by decide)).2.2 rfl

/-- C10: for every request in which an optional input is omitted, the
handler substitutes the fixed default before calling the analyzer: /query
uses similarity_threshold 0.5 and top_k 20; /topics uses min_frequency 2;
/pass-strategy and /pass-simulation use studied_topics empty, internal_marks
0, external_pass_threshold 40 and overall_pass_threshold 75, producing the
calculated target max(40, 75 - 0) and echoing the default inputs back. -/
theorem c10_default_substitution (a : ExamAnalyzer) (hfit : a.is_fitted = true)
    (d : JObject) (s : String)
    (hq : lookupKey d "query" = some (.jstr s)) (hs : pyStrip s ≠ "")
    (hth : lookupKey d "similarity_threshold" = none)
    (htk : lookupKey d "top_k" = none)
    (d2 : JObject) (hne2 : d2 ≠ [])
    (h1 : lookupKey d2 "studied_topics" = none)
    (h2 : lookupKey d2 "internal_marks" = none)
    (h3 : lookupKey d2 "external_pass_threshold" = none)
    (h4 : lookupKey d2 "overall_pass_threshold" = none)
    (args : List (String × String)) (hmf : argsGet args "min_frequency" = none) :
    (semantic_query (some a) (some d)).2
      = [.search (pyStrip s) (.jnum (1/2)) (.jnum 20),
         .moduleDist (a.semantic_search (pyStrip s) (.jnum (1/2)) (.jnum 20)),
         .marksDist (a.semantic_search (pyStrip s) (.jnum (1/2)) (.jnum 20))]
  ∧ (analyze_topics (some a) args).2 = [.topics 2]
  ∧ (pass_strategy (some a) (some d2)).2 = [.strategy (.jarr []) (max 40 (75 - 0))]
  ∧ (pass_simulation (some a) (some d2)).2 = [.simulation (.jarr []) (max 40 (75 - 0))]
  ∧ jlook (jlook (pass_strategy (some a) (some d2)).1.body "inputs")
        "internal_marks" = .jnum 0
  ∧ jlook (jlook (pass_strategy (some a) (some d2)).1.body "inputs")
        "studied_topics" = .jarr [] := by
  have hquery := semantic_query_success a hfit d s hq hs
  rw [jget_of_lookup_none hth, jget_of_lookup_none htk] at hquery
  have hstrat := pass_strategy_success a hfit d2 hne2 0 75 40
    (by rw [jget_of_lookup_none h2]; rfl)
    (by rw [jget_of_lookup_none h4]; rfl)
    (by rw [jget_of_lookup_none h3]; rfl)
  have hsim := pass_simulation_success a hfit d2 hne2 0 75 40
    (by rw [jget_of_lookup_none h2]; rfl)
    (by rw [jget_of_lookup_none h4]; rfl)
    (by rw [jget_of_lookup_none h3]; rfl)
  rw [jget_of_lookup_none h1, jget_of_lookup_none h2] at hstrat hsim
  refine ⟨by rw [hquery], ?_, by rw [hstrat], by rw [hsim], ?_, ?_⟩
  · simp [analyze_topics, hfit, hmf]
  · rw [hstrat]
    simp [jlook, jget, lookupKey, lookupKey_jset_self]
  · rw [hstrat]
    simp [jlook, jget, lookupKey, lookupKey_jset_self]

/-- Witness for C10 at concrete minimal requests omitting every optional
field. -/
theorem c10_default_substitution_witness :
    (semantic_query (some trivialAnalyzer) (some [("query", .jstr "x")])).2
      = [.search (pyStrip "x") (.jnum (1/2)) (.jnum 20), .moduleDist [], .marksDist []]
  ∧ (analyze_topics (some trivialAnalyzer) []).2 = [.topics 2]
  ∧ (pass_strategy (some trivialAnalyzer)
        (some [("other", .jnull)])).2 = [.strategy (.jarr []) (max 40 (75 - 0))] := by
  have h := c10_default_substitution trivialAnalyzer rfl
    [("query", .jstr "x")] "x" rfl (by decide) rfl rfl
    [("other", .jnull)] (by simp) rfl rfl rfl rfl [] rfl
  exact ⟨h.1, h.2.1, h.2.2.1⟩

/-- C6 counterexample: a /topics request with the non-numeric min_frequency
value abc on a ready analyzer is answered with internal-server-error 500
(the ValueError of int() escapes to the flask errorhandler), not with
bad-request 400 as the claim states. -/
theorem c6_counterexample :
    (analyze_topics (some trivialAnalyzer) [("min_frequency", "abc")]).1.status = 500
  ∧ ¬(analyze_topics (some trivialAnalyzer) [("min_frequency", "abc")]).1.status = 400 :=
  ⟨rfl, by decide⟩

/-- C6 amended: malformed numeric fields are not reported as bad-request:
a min_frequency that int() cannot parse makes /topics fail with 500 and no
analyzer call, and a non-numeric internal_marks, overall_pass_threshold or
external_pass_threshold makes /pass-strategy and /pass-simulation fail with
500 (TypeError in the target arithmetic) and no analyzer call. -/
theorem c6_malformed_numeric_is_500 (a : ExamAnalyzer) (hfit : a.is_fitted = true) :
    (∀ args s, argsGet args "min_frequency" = some s → pyParseInt s = none →
        (analyze_topics (some a) args).1.status = 500
      ∧ (analyze_topics (some a) args).2 = [])
  ∧ (∀ d : JObject, d ≠ [] →
      (pyToNum (jget d "internal_marks" (.jnum 0)) = none
        ∨ pyToNum (jget d "overall_pass_threshold" (.jnum 75)) = none
        ∨ pyToNum (jget d "external_pass_threshold" (.jnum 40)) = none) →
        (pass_strategy (some a) (some d)).1.status = 500
      ∧ (pass_strategy (some a) (some d)).2 = [])
  ∧ (∀ d : JObject, d ≠ [] →
      (pyToNum (jget d "internal_marks" (.jnum 0)) = none
        ∨ pyToNum (jget d "overall_pass_threshold" (.jnum 75)) = none
        ∨ pyToNum (jget d "external_pass_threshold" (.jnum 40)) = none) →
        (pass_simulation (some a) (some d)).1.status = 500
      ∧ (pass_simulation (some a) (some d)).2 = []) := by
  refine ⟨?_, ?_, ?_⟩
  · intro args s hargs hparse
    have : analyze_topics (some a) args = (internalErrorResponse, []) := by
      simp [analyze_topics, hfit, hargs, hparse]
    rw [this]
    exact ⟨rfl, rfl⟩
  · intro d hne h
    have hdt : pyTruthy (.jobj d) = true := pyTruthy_jobj_of_ne hne
    rcases h with him | hov | hex
    · have hsub : pySub (jget d "overall_pass_threshold" (.jnum 75))
          (jget d "internal_marks" (.jnum 0)) = none := by
        cases hov2 : pyToNum (jget d "overall_pass_threshold" (.jnum 75)) <;>
          simp [pySub, him, hov2]
      have : pass_strategy (some a) (some d) = (internalErrorResponse, []) := by
        simp [pass_strategy, hfit, hdt, hsub]
      rw [this]
      exact ⟨rfl, rfl⟩
    · have hsub : pySub (jget d "overall_pass_threshold" (.jnum 75))
          (jget d "internal_marks" (.jnum 0)) = none := by
        simp [pySub, hov]
      have : pass_strategy (some a) (some d) = (internalErrorResponse, []) := by
        simp [pass_strategy, hfit, hdt, hsub]
      rw [this]
      exact ⟨rfl, rfl⟩
    · cases hsub : pySub (jget d "overall_pass_threshold" (.jnum 75))
          (jget d "internal_marks" (.jnum 0)) with
      | none =>
        have : pass_strategy (some a) (some d) = (internalErrorResponse, []) := by
          simp [pass_strategy, hfit, hdt, hsub]
        rw [this]
        exact ⟨rfl, rfl⟩
      | some mn =>
        have : pass_strategy (some a) (some d) = (internalErrorResponse, []) := by
          simp [pass_strategy, hfit, hdt, hsub, pyMaxNum, hex]
        rw [this]
        exact ⟨rfl, rfl⟩
  · intro d hne h
    have hdt : pyTruthy (.jobj d) = true := pyTruthy_jobj_of_ne hne
    rcases h with him | hov | hex
    · have hsub : pySub (jget d "overall_pass_threshold" (.jnum 75))
          (jget d "internal_marks" (.jnum 0)) = none := by
        cases hov2 : pyToNum (jget d "overall_pass_threshold" (.jnum 75)) <;>
          simp [pySub, him, hov2]
      have : pass_simulation (some a) (some d) = (internalErrorResponse, []) := by
        simp [pass_simulation, hfit, hdt, hsub]
      rw [this]
      exact ⟨rfl, rfl⟩
    · have hsub : pySub (jget d "overall_pass_threshold" (.jnum 75))
          (jget d "internal_marks" (.jnum 0)) = none := by
        simp [pySub, hov]
      have : pass_simulation (some a) (some d) = (internalErrorResponse, []) := by
        simp [pass_simulation, hfit, hdt, hsub]
      rw [this]
      exact ⟨rfl, rfl⟩
    · cases hsub : pySub (jget d "overall_pass_threshold" (.jnum 75))
          (jget d "internal_marks" (.jnum 0)) with
      | none =>
        have : pass_simulation (some a) (some d) = (internalErrorResponse, []) := by
          simp [pass_simulation, hfit, hdt, hsub]
        rw [this]
        exact ⟨rfl, rfl⟩
      | some mn =>
        have : pass_simulation (some a) (some d) = (internalErrorResponse, []) := by
          simp [pass_simulation, hfit, hdt, hsub, pyMaxNum, hex]
        rw [this]
        exact ⟨rfl, rfl⟩

/-- Witness for the amended C6 at concrete malformed inputs. -/
theorem c6_malformed_numeric_is_500_witness :
    ((analyze_topics (some trivialAnalyzer) [("min_frequency", "2x")]).1.status = 500
      ∧ (analyze_topics (some trivialAnalyzer) [("min_frequency", "2x")]).2 = [])
  ∧ ((pass_strategy (some trivialAnalyzer)
        (some [("internal_marks", .jstr "ten")])).1.status = 500
      ∧ (pass_strategy (some trivialAnalyzer)
          (some [("internal_marks", .jstr "ten")])).2 = []) :=
  ⟨(c6_malformed_numeric_is_500 trivialAnalyzer rfl).1 [("min_frequency", "2x")] "2x"
      rfl rfl,
   (c6_malformed_numeric_is_500 trivialAnalyzer rfl).2.1 [("internal_marks", .jstr "ten")]
      (by simp) (Or.inl rfl)⟩

/-- On a list of well-formed course entries the handler loop agrees with
the declarative first-match search. -/
theorem scanCourses_eq_firstMatch (code : String) (cs : List JValue)
    (hwf : ∀ c ∈ cs, WFCourse c) :
    scanCourses code cs
      = (match firstMatchingCourse code cs with
         | some (cc, t) => CourseScan.found (.jstr cc) t
         | none => CourseScan.notFound) := by
  induction cs with
  | nil => rfl
  | cons c rest ih =>
    have hc := hwf c (List.mem_cons_self c rest)
    have ih2 := ih (fun x hx => hwf x (List.mem_cons_of_mem c hx))
    obtain ⟨o, cc, rfl, hcc⟩ := hc
    by_cases hmatch : pyUpper cc = pyUpper code
    · simp [scanCourses, firstMatchingCourse, List.findSome?_cons, courseHit,
            hcc, hmatch]
    · simp only [scanCourses, firstMatchingCourse, List.findSome?_cons, courseHit,
            hcc, if_neg hmatch]
      exact ih2

/-- C7: for every /topics-for-course request, a missing code parameter
yields bad-request 400; otherwise (with the configuration file present and
well-formed course entries) the first course whose courseCode equals the
parameter case-insensitively is returned with its courseCode and topics
list, and when no course matches the handler returns not-found 404 with an
error message. -/
theorem c7_topics_for_course (file : Option JValue) (d : JObject) (cs : List JValue)
    (code : String) (hcode : code ≠ "")
    (hfile : file = some (.jobj d))
    (hcs : jget d "courses" (.jarr []) = .jarr cs)
    (hwf : ∀ c ∈ cs, WFCourse c) :
    (∀ args, argsGet args "code" = none → (get_topics_for_course args file).status = 400)
  ∧ (∀ cc topics, firstMatchingCourse code cs = some (cc, topics) →
      get_topics_for_course [("code", code)] file
        = ⟨200, .jobj [("courseCode", .jstr cc), ("topics", topics)]⟩)
  ∧ (firstMatchingCourse code cs = none →
      (get_topics_for_course [("code", code)] file).status = 404
      ∧ jlook (get_topics_for_course [("code", code)] file).body "error" ≠ .jnull) := by
  subst hfile
  have hce : code.isEmpty = false := isEmpty_false_of_ne hcode
  have hscan := scanCourses_eq_firstMatch code cs hwf
  refine ⟨fun args ha => by simp [get_topics_for_course, ha], ?_, ?_⟩
  · intro cc topics hfm
    rw [hfm] at hscan
    simp only [] at hscan
    simp [get_topics_for_course, argsGet, hce, hcs, hscan]
  · intro hfm
    rw [hfm] at hscan
    simp only [] at hscan
    have hred : get_topics_for_course [("code", code)] (some (.jobj d))
        = ⟨404, errBody "Course not found."⟩ := by
      simp [get_topics_for_course, argsGet, hce, hcs, hscan]
    rw [hred]
    exact ⟨rfl, by simp [errBody, jlook, jget, lookupKey]⟩

/-- Witness for C7 at a one-course configuration file queried with a
differently-cased code. -/
theorem c7_topics_for_course_witness :
    get_topics_for_course [("code", "CST206")]
        (some (.jobj [("courses", .jarr [.jobj [("courseCode", .jstr "cst206"),
            ("topics", .jarr [.jstr "t1"])]])]))
      = ⟨200, .jobj [("courseCode", .jstr "cst206"), ("topics", .jarr [.jstr "t1"])]⟩
  ∧ (get_topics_for_course []
        (some (.jobj [("courses", .jarr [.jobj [("courseCode", .jstr "cst206"),
            ("topics", .jarr [.jstr "t1"])]])]))).status = 400 := by
  have h := c7_topics_for_course
    (some (.jobj [("courses", .jarr [.jobj [("courseCode", .jstr "cst206"),
        ("topics", .jarr [.jstr "t1"])]])]))
    [("courses", .jarr [.jobj [("courseCode", .jstr "cst206"),
        ("topics", .jarr [.jstr "t1"])]])]
    [.jobj [("courseCode", .jstr "cst206"), ("topics", .jarr [.jstr "t1"])]]
    "CST206" (by decide) rfl rfl
    (by
      intro c hc
      simp only [List.mem_singleton] at hc
      subst hc
      exact ⟨_, "cst206", rfl, rfl⟩)
  exact ⟨h.2.1 "cst206" (.jarr [.jstr "t1"]) rfl, h.1 [] rfl⟩

/-- The greedy accumulation reaches the target exactly when the starting
value plus the whole pool of average marks reaches it, provided every
average is nonnegative. -/
theorem greedyPlan_reaches (pool : List TopicRecord) (target : Rat) :
    ∀ acc : Rat, (∀ r ∈ pool, 0 ≤ r.avg_marks) →
      (target ≤ (greedyPlan pool acc target).2 ↔
        target ≤ acc + ((pool.map (fun r => r.avg_marks)).sum)) := by
  induction pool with
  | nil =>
    intro acc h
    simp [greedyPlan]
  | cons r rest ih =>
    intro acc h
    have hr : 0 ≤ r.avg_marks := h r (List.mem_cons_self r rest)
    have hrest : ∀ x ∈ rest, 0 ≤ x.avg_marks :=
      fun x hx => h x (List.mem_cons_of_mem r hx)
    have hsum : (0 : Rat) ≤ (rest.map (fun x => x.avg_marks)).sum := by
      apply List.sum_nonneg
      intro x hx
      obtain ⟨y, hy, rfl⟩ := List.mem_map.mp hx
      exact hrest y hy
    by_cases hle : target ≤ acc
    · have hfst : (greedyPlan (r :: rest) acc target).2 = acc := by
        simp [greedyPlan, hle]
      rw [hfst]
      simp only [List.map_cons, List.sum_cons]
      constructor
      · intro _
        linarith
      · intro _
        exact hle
    · have hfst : (greedyPlan (r :: rest) acc target).2
          = (greedyPlan rest (acc + r.avg_marks) target).2 := by
        simp [greedyPlan, hle]
      rw [hfst, ih (acc + r.avg_marks) hrest]
      simp only [List.map_cons, List.sum_cons]
      constructor <;> intro <;> linarith

/-- Every topic record computed from a corpus has a nonnegative average
(total marks and frequency are natural numbers). -/
theorem computeTopicRecords_avg_nonneg (corpus : List Question) :
    ∀ r ∈ computeTopicRecords corpus, 0 ≤ r.avg_marks := by
  intro r hr
  unfold computeTopicRecords at hr
  obtain ⟨t, ht, rfl⟩ := List.mem_map.mp hr
  dsimp only []
  apply div_nonneg
  · exact_mod_cast Nat.zero_le _
  · exact_mod_cast Nat.zero_le _

/-- C3: for every corpus, studied-topic set and numeric target, the
feasibility flag of the Planner is false exactly when the sum of average
marks across all non-studied topics plus the studied-topic contribution is
less than the target; at exact equality the flag is true.  (The Planner is
modelled from the spec: its implementation lives in exam_analyzer.py, which
is not among the sources in scope.) -/
theorem c3_planner_feasibility (corpus : List Question) (studied : List String)
    (target : Rat) :
    ((Planner.get_pass_strategy (computeTopicRecords corpus) studied target).feasible
        = false
      ↔ studiedContribution (computeTopicRecords corpus) studied
          + nonStudiedAvgSum (computeTopicRecords corpus) studied < target)
  ∧ (studiedContribution (computeTopicRecords corpus) studied
        + nonStudiedAvgSum (computeTopicRecords corpus) studied = target →
      (Planner.get_pass_strategy (computeTopicRecords corpus) studied target).feasible
        = true) := by
  have hnn : ∀ r ∈ computeTopicRecords corpus, 0 ≤ r.avg_marks :=
    computeTopicRecords_avg_nonneg corpus
  have hpoolnn : ∀ r ∈ ((computeTopicRecords corpus).filter
      (fun r => r.topic ∉ studied)).insertionSort
        (fun r s => topicWeight s ≤ topicWeight r), 0 ≤ r.avg_marks := by
    intro r hr
    have hmem := (List.perm_insertionSort
        (fun r s => topicWeight s ≤ topicWeight r)
        ((computeTopicRecords corpus).filter (fun r => r.topic ∉ studied))).mem_iff.mp hr
    exact hnn r (List.mem_of_mem_filter hmem)
  have hfeas : (Planner.get_pass_strategy (computeTopicRecords corpus) studied
        target).feasible
      = decide (target ≤ (greedyPlan
          (((computeTopicRecords corpus).filter
            (fun r => r.topic ∉ studied)).insertionSort
              (fun r s => topicWeight s ≤ topicWeight r))
          (studiedContribution (computeTopicRecords corpus) studied) target).2) := rfl
  have hsum : ((((computeTopicRecords corpus).filter
        (fun r => r.topic ∉ studied)).insertionSort
          (fun r s => topicWeight s ≤ topicWeight r)).map
        (fun r => r.avg_marks)).sum
      = nonStudiedAvgSum (computeTopicRecords corpus) studied :=
    ((List.perm_insertionSort (fun r s => topicWeight s ≤ topicWeight r)
        ((computeTopicRecords corpus).filter
          (fun r => r.topic ∉ studied))).map (fun r => r.avg_marks)).sum_eq
  have hiff := greedyPlan_reaches
    (((computeTopicRecords corpus).filter
      (fun r => r.topic ∉ studied)).insertionSort
        (fun r s => topicWeight s ≤ topicWeight r))
    target (studiedContribution (computeTopicRecords corpus) studied) hpoolnn
  rw [hsum] at hiff
  constructor
  · rw [hfeas]
    rw [decide_eq_false_iff_not, hiff, not_le]
  · intro heq
    rw [hfeas, decide_eq_true_eq, hiff, heq]

/-- Witness for C3 at the empty corpus and target 1: the available total is
0 < 1, so the feasibility flag is false. -/
theorem c3_planner_feasibility_witness :
    (Planner.get_pass_strategy (computeTopicRecords []) [] 1).feasible = false :=
  (c3_planner_feasibility [] [] 1).1.mpr
    (by
      norm_num [show studiedContribution (computeTopicRecords []) [] = 0 from rfl,
                show nonStudiedAvgSum (computeTopicRecords []) [] = 0 from rfl])

end PassPilot
